import Mathlib

/-!
Verification development for the `vlmcar` telemetry client.

The repository is a small React front end that keeps a live WebSocket feed of
robot telemetry, records each connection epoch into a session log, and can
replay a persisted log on a timer.  This file gives a shallow embedding of the
session-management core:

* the JSON value model and JavaScript truthiness (needed because the loader's
  repairs are guarded by JS falsiness checks);
* `loadLogFile` (file `LogLoader.ts`): fetch, structural validation,
  per-element normalization with ordinal fallbacks;
* the session recorder's artifact (`downloadLog` in the full `App` variant):
  serialization of `{startTime, snapshots}`;
* the live-history buffer (`[...prev, snap].slice(-10)`);
* the connection state machine of the full variant (debounce guard, per-attempt
  log creation, message ingestion) and of the bounded-retry variant
  (attempt cap of 3);
* the playback engine of `LogViewer` (`togglePlayback` and the interval
  callback).

Machine event handlers are embedded as pure state transformers; the browser's
event loop is single-threaded and each handler runs to completion, so a run of
the system is a fold of handlers over an event list.
-/

/-- JSON-like values as decoded by `JSON.parse` / dynamic `import` of a JSON
file.  Numbers are modelled as integers (every numeric field the program
produces — ids, epoch-millisecond timestamps — is integral). -/
inductive JVal where
  | jnull
  | jbool (b : Bool)
  | jnum (n : Int)
  | jstr (s : String)
  | jarr (elems : List JVal)
  | jobj (fields : List (String × JVal))

/-- A decoded JavaScript object: an ordered list of key/value pairs
(JS objects preserve string-key insertion order). -/
abbrev JRecord := List (String × JVal)

/-- JavaScript truthiness of a value: `null`, `false`, `0` and `""` are falsy;
arrays and objects (even empty ones) are truthy.  (`NaN` and `undefined` do not
arise as `JVal`s; an absent field is `none` at the `Option JVal` level.) -/
def truthy : JVal → Bool
  | .jnull => false
  | .jbool b => b
  | .jnum n => n != 0
  | .jstr s => s != ""
  | .jarr _ => true
  | .jobj _ => true

/-- Truthiness of a possibly-absent field: reading a missing property yields
`undefined`, which is falsy. -/
def truthyOpt : Option JVal → Bool
  | none => false
  | some v => truthy v

/-- Property read `obj[key]` on a record: the value at the first matching key,
`none` when absent. -/
def getField : JRecord → String → Option JVal
  | [], _ => none
  | (k, v) :: rest, key => if k = key then some v else getField rest key

/-- Property write `obj[key] = v` on a record: overwrite in place when the key
exists, append otherwise (JS assignment keeps a pre-existing key's position). -/
def setField : JRecord → String → JVal → JRecord
  | [], key, v => [(key, v)]
  | (k, w) :: rest, key, v =>
      if k = key then (key, v) :: rest else (k, w) :: setField rest key v

/-- Property read on an arbitrary value: reading a property of a non-object
yields `undefined` (for `null` the real code would throw before reaching the
reads modelled here; no claim exercises that path). -/
def getJField (v : JVal) (key : String) : Option JVal :=
  match v with
  | .jobj fields => getField fields key
  | _ => none

/-- `Array.isArray`. -/
def isArray : JVal → Bool
  | .jarr _ => true
  | _ => false

/-- The per-element repair step of `loadLogFile` (`LogLoader.ts`, the body of
the `map` at lines 16–30): a falsy-or-missing `timestamp` is replaced by the
element's index (with a `console.warn`, reported in the second component), a
falsy-or-missing `id` is replaced by the index, a falsy-or-missing `data` is
replaced by `{}`. -/
def normalizeRecord (snapshot : JRecord) (index : Nat) : JRecord × Bool :=
  let warned := !truthyOpt (getField snapshot "timestamp")
  let fs1 := if truthyOpt (getField snapshot "timestamp") then snapshot
             else setField snapshot "timestamp" (.jnum index)
  let fs2 := if truthyOpt (getField fs1 "id") then fs1
             else setField fs1 "id" (.jnum index)
  let fs3 := if truthyOpt (getField fs2 "data") then fs2
             else setField fs2 "data" (.jobj [])
  (fs3, warned)

/-- Failure conditions `loadLogFile` can log before resolving to `[]`:
the explicit `"Invalid log file format"` throw (the `MalformedLog` condition),
a failed dynamic import, or a strict-mode `TypeError` from assigning a
property on a non-object array element. -/
inductive LoadErr where
  | malformedLog
  | fetchFailure
  | elementFailure
deriving DecidableEq, Repr

/-- Outcome of a `loadLogFile` call: the error logged through the
`catch` block (if any) and the resolved snapshot list.  The function always
resolves — it never raises to its caller. -/
structure LoadResult where
  reported : Option LoadErr
  snapshots : List JRecord

/-- Normalize the elements of the `snapshots` array in order, threading the
ordinal.  A non-object element makes the whole map fail (assigning a defaulted
field on a primitive throws in strict mode, landing in the outer `catch`). -/
def normElems : Nat → List JVal → Option (List JRecord)
  | _, [] => some []
  | i, .jobj fields :: rest =>
      (normElems (i + 1) rest).map (fun rs => (normalizeRecord fields i).1 :: rs)
  | _, _ :: _ => none

/-- Shallow embedding of `loadLogFile` (`LogLoader.ts` lines 3–37).  The input
is the result of the dynamic import: either a thrown fetch/decode error or the
decoded JSON value.  The guard `!logFile.snapshots || !Array.isArray(...)`
rejects exactly the values whose `snapshots` field is not an array (a missing
field is falsy `undefined`; every falsy value is a non-array; arrays, even
empty, are truthy), so the match below is case-for-case the source guard. -/
def loadLogFile (fetched : Except String JVal) : LoadResult :=
  match fetched with
  | .error _ => ⟨some .fetchFailure, []⟩
  | .ok v =>
    match getJField v "snapshots" with
    | some (.jarr elems) =>
        match normElems 0 elems with
        | some rs => ⟨none, rs⟩
        | none => ⟨some .elementFailure, []⟩
    | _ => ⟨some .malformedLog, []⟩

/-- One recorded observation, as built by the full variant's `onmessage`
handler: `{ id: nextId.current++, image, data: otherData, timestamp: Date.now() }`. -/
structure DataSnapshot where
  id : Nat
  image : Option String
  data : JRecord
  timestamp : Nat

/-- The session log: `{ startTime, snapshots }`. -/
structure LogFile where
  startTime : Nat
  snapshots : List DataSnapshot

/-- The JSON object `JSON.stringify` writes for one snapshot inside
`downloadLog`: keys in literal order `id`, `image`, `data`, `timestamp`, with
an `undefined` `image` omitted entirely (as `JSON.stringify` does). -/
def snapRecord (s : DataSnapshot) : JRecord :=
  ("id", .jnum s.id) ::
    (match s.image with
     | some img => [("image", .jstr img)]
     | none => []) ++ [("data", .jobj s.data), ("timestamp", .jnum s.timestamp)]

/-- The full artifact `downloadLog` persists: `{ startTime, snapshots }`
serialized to JSON.  Persist-then-fetch is the identity on the decoded JSON
value, so the loader's input for a persisted log is exactly this value. -/
def serializeLogFile (lf : LogFile) : JVal :=
  .jobj [("startTime", .jnum lf.startTime),
         ("snapshots", .jarr (lf.snapshots.map (fun s => .jobj (snapRecord s))))]

/-- The live-history push `setDataHistory(prev => [...prev, snap].slice(-10))`:
append, then keep the last 10 elements. -/
def pushHistory (prev : List DataSnapshot) (s : DataSnapshot) : List DataSnapshot :=
  let l := prev ++ [s]
  l.drop (l.length - 10)

/-- Connection status values the full `App` variant writes into
`connectionStatus`. -/
inductive ConnStatus where
  | Disconnected
  | Connected
  | DisconnectedRetrying
  | ConnectionError
deriving DecidableEq, Repr

/-- State owned by the full `App` variant's connection manager: the refs
`lastReconnectTime`, `reconnectAttempts`, `nextId`, the current log file and
the timestamp its `run_..` file name is generated from, the status, and the
bounded live history. -/
structure ConnState where
  lastReconnectTime : Nat
  reconnectAttempts : Nat
  nextId : Nat
  logFileStamp : Nat
  currentLogFile : Option LogFile
  status : ConnStatus
  dataHistory : List DataSnapshot

/-- Observable side effects of one handler invocation: whether a `WebSocket`
was constructed, and whether `downloadLog` was triggered. -/
structure StepEffects where
  channelCreated : Bool
  downloadTriggered : Bool

/-- An inbound frame after `JSON.parse`: either the parse threw (`junk`,
logged and dropped) or it produced a record destructured as
`const { image, ...otherData } = receivedData`. -/
inductive WSMsg where
  | junk
  | parsed (image : Option String) (rest : JRecord)

/-- Events driving the connection manager: a call of `connectWebSocket`, the
channel's `open`, `close` and `message` callbacks.  Each carries the value of
`Date.now()` where the handler reads the clock (the `open` handler does not
read it; the parameter records the wall time of the event for specification
purposes only). -/
inductive Ev where
  | connect (now : Nat)
  | openEvt (now : Nat)
  | closeEvt
  | message (now : Nat) (m : WSMsg)

namespace Live

/-- Initial component state: refs start at `0`, no log yet, status
`"Disconnected"`, empty history. -/
def initState : ConnState :=
  ⟨0, 0, 0, 0, none, .Disconnected, []⟩

/-- `connectWebSocket` of the full variant (`App.tsx` / part_002 lines
199–277): the debounce guard returns immediately when less than 500 ms have
passed since the previous attempt's start; otherwise it stamps the attempt
time, bumps the attempt counter, generates a fresh log file name from the
current time, replaces the current log with `{ startTime: now, snapshots: [] }`
and constructs the channel.  (JS computes `now - last` over integers where
`now ≥ last` by clock monotonicity; truncated `Nat` subtraction agrees there.) -/
def connectWebSocket (s : ConnState) (now : Nat) : ConnState × StepEffects :=
  if now - s.lastReconnectTime < 500 then (s, ⟨false, false⟩)
  else
    ({ s with lastReconnectTime := now,
              reconnectAttempts := s.reconnectAttempts + 1,
              logFileStamp := now,
              currentLogFile := some ⟨now, []⟩ }, ⟨true, false⟩)

/-- The `onopen` handler: set status `"Connected"` and reset the attempt
counter.  It touches nothing else. -/
def onOpen (s : ConnState) : ConnState :=
  { s with status := .Connected, reconnectAttempts := 0 }

/-- The `onclose` handler: set the retrying status, trigger `downloadLog` when
the current log has at least one snapshot, and (re)arm the reconnect timer
(timer bookkeeping carries no machine state here). -/
def onClose (s : ConnState) : ConnState × StepEffects :=
  ({ s with status := .DisconnectedRetrying },
   ⟨false, match s.currentLogFile with
           | some lf => lf.snapshots.length != 0
           | none => false⟩)

/-- The `onmessage` handler: a frame that fails `JSON.parse` is logged and
dropped; otherwise a snapshot is built from the fresh id, the destructured
`image`, the remaining keys and `Date.now()`, appended to the current log
(when one exists) and pushed into the bounded history. -/
def onMessage (s : ConnState) (now : Nat) (m : WSMsg) : ConnState :=
  match m with
  | .junk => s
  | .parsed image rest =>
      let snap : DataSnapshot := ⟨s.nextId, image, rest, now⟩
      { s with nextId := s.nextId + 1,
               currentLogFile := s.currentLogFile.map
                 (fun lf => { lf with snapshots := lf.snapshots ++ [snap] }),
               dataHistory := pushHistory s.dataHistory snap }

/-- One event-loop step of the full variant. -/
def step (s : ConnState) : Ev → ConnState × StepEffects
  | .connect now => connectWebSocket s now
  | .openEvt _ => (onOpen s, ⟨false, false⟩)
  | .closeEvt => onClose s
  | .message now m => (onMessage s now m, ⟨false, false⟩)

/-- Run a list of events to completion (each handler is atomic in the
browser's event loop). -/
def run (s : ConnState) : List Ev → ConnState
  | [] => s
  | e :: rest => run (step s e).1 rest

/-- Number of inbound messages in an event list that parse successfully (the
ones the ingestion pipeline turns into snapshots). -/
def countParsed : List Ev → Nat
  | [] => 0
  | .message _ (.parsed _ _) :: rest => countParsed rest + 1
  | _ :: rest => countParsed rest

/-- Whether an event is a `connectWebSocket` call. -/
def isConnect : Ev → Bool
  | .connect _ => true
  | _ => false

end Live

namespace Bounded

/-- Connection status values of the bounded-retry variant (part_001):
`"Failed to connect after 3 attempts"` is the exhausted terminal status. -/
inductive BStatus where
  | Disconnected
  | Connected
  | DisconnectedAttempt (n : Nat)
  | ErrorAttempt (n : Nat)
  | Exhausted
deriving DecidableEq, Repr

/-- State of the bounded-retry variant: the two refs and the status. -/
structure BState where
  lastReconnectTime : Nat
  reconnectAttempts : Nat
  status : BStatus
deriving DecidableEq, Repr

/-- Initial state. -/
def initState : BState := ⟨0, 0, .Disconnected⟩

/-- `connectWebSocket` of the bounded variant (part_001 lines 16–51): the
same 500 ms debounce guard; then stamp and increment; if the counter now
exceeds 3, set the exhausted status and return without constructing a
channel; otherwise construct the channel.  The second component reports
whether a channel was created. -/
def connectWebSocket (s : BState) (now : Nat) : BState × Bool :=
  if now - s.lastReconnectTime < 500 then (s, false)
  else
    let s1 : BState := { s with lastReconnectTime := now,
                                reconnectAttempts := s.reconnectAttempts + 1 }
    if s1.reconnectAttempts > 3 then ({ s1 with status := .Exhausted }, false)
    else (s1, true)

/-- The bounded variant's `onopen`: status `"Connected"`, counter reset. -/
def onOpen (s : BState) : BState :=
  { s with status := .Connected, reconnectAttempts := 0 }

/-- The bounded variant's `onclose`: record the attempt-tagged disconnected
status; schedule a reconnect (a `setTimeout` of `connectWebSocket`) only while
`reconnectAttempts < 3`.  The second component reports whether a reconnect was
scheduled. -/
def onClose (s : BState) : BState × Bool :=
  ({ s with status := .DisconnectedAttempt s.reconnectAttempts },
   decide (s.reconnectAttempts < 3))

/-- Run a list of `connectWebSocket` calls at the given times, counting how
many channels get created. -/
def runConnects (s : BState) : List Nat → BState × Nat
  | [] => (s, 0)
  | t :: rest =>
      let p := connectWebSocket s t
      let q := runConnects p.1 rest
      (q.1, (if p.2 then 1 else 0) + q.2)

end Bounded

namespace Playback

/-- The playback engine's cursor: the `isPlaying` / `currentIndex` state of
`LogViewer`. -/
structure PState where
  isPlaying : Bool
  currentIndex : Nat
deriving DecidableEq, Repr

/-- `togglePlayback` (part_002 lines 116–122) over a backing sequence of
length `L`: when paused at (or beyond) the last element, reset the index to 0
before starting; then flip `isPlaying`.  The JS comparison
`currentIndex >= activeSnapshots.length - 1` is over integers (`-1` when
`L = 0`, under which every index passes); truncated `Nat` subtraction gives
the same predicate, since for `L = 0` and `L = 1` both versions hold for
every index. -/
def togglePlayback (L : Nat) (s : PState) : PState :=
  ⟨!s.isPlaying,
   if !s.isPlaying && decide (L - 1 ≤ s.currentIndex) then 0 else s.currentIndex⟩

/-- The interval callback armed while playing (part_002 lines 95–103): at or
beyond the last element it stops playback and leaves the index unchanged;
otherwise it advances the index by one and playback continues. -/
def tick (L : Nat) (s : PState) : PState :=
  if L - 1 ≤ s.currentIndex then ⟨false, s.currentIndex⟩
  else ⟨s.isPlaying, s.currentIndex + 1⟩

/-- Completion of `loadData` (part_002 lines 71–78): the loaded snapshots
replace the backing sequence, and the cursor is reset to paused at index 0
(`setCurrentIndex(0); setIsPlaying(false)`), whatever state playback was in. -/
def loadComplete (loaded : List JRecord) : List JRecord × PState :=
  (loaded, ⟨false, 0⟩)

/-- The cursor invariant of the spec: `0 ≤ index < max(L, 1)`. -/
def inv (L : Nat) (s : PState) : Prop :=
  s.currentIndex < max L 1

end Playback

/-! ### Helper lemmas -/

theorem getField_setField_self (fs : JRecord) (k : String) (v : JVal) :
    getField (setField fs k v) k = some v := by
  induction fs with
  | nil => simp [setField, getField]
  | cons p rest ih =>
    obtain ⟨k1, w⟩ := p
    by_cases h : k1 = k
    · simp [setField, h, getField]
    · simp [setField, h, getField, ih]

theorem getField_setField_ne (fs : JRecord) (k k2 : String) (v : JVal)
    (h : k2 ≠ k) : getField (setField fs k v) k2 = getField fs k2 := by
  induction fs with
  | nil => simp [setField, getField, Ne.symm h]
  | cons p rest ih =>
    obtain ⟨k1, w⟩ := p
    by_cases hk : k1 = k
    · subst hk
      simp [setField, getField, Ne.symm h]
    · simp [setField, hk, getField, ih]

theorem setField_eq_of_getField (fs : JRecord) (k : String) (v : JVal)
    (h : getField fs k = some v) : setField fs k v = fs := by
  induction fs with
  | nil => simp [getField] at h
  | cons p rest ih =>
    obtain ⟨k1, w⟩ := p
    by_cases hk : k1 = k
    · subst hk
      simp [getField] at h
      simp [setField, h]
    · simp [getField, hk] at h
      simp [setField, hk, ih h]

theorem pushHistory_length_le (prev : List DataSnapshot) (s : DataSnapshot) :
    (pushHistory prev s).length ≤ 10 := by
  simp [pushHistory]
  omega

theorem foldl_pushHistory (l : List DataSnapshot) :
    ∀ init : List DataSnapshot, init.length ≤ 10 →
      l.foldl pushHistory init = (init ++ l).drop ((init ++ l).length - 10) := by
  induction l with
  | nil =>
    intro init h
    simp only [List.foldl_nil, List.append_nil]
    have h0 : init.length - 10 = 0 := by omega
    rw [h0, List.drop_zero]
  | cons a l ih =>
    intro init h
    rw [List.foldl_cons, ih (pushHistory init a) (pushHistory_length_le init a)]
    have hd : (init ++ [a]).length - 10 ≤ (init ++ [a]).length := by omega
    have e1 : (pushHistory init a) ++ l
        = ((init ++ [a]) ++ l).drop ((init ++ [a]).length - 10) := by
      rw [pushHistory, List.drop_append_of_le_length hd]
    rw [e1, List.drop_drop]
    have e2 : (init ++ [a]) ++ l = init ++ a :: l := by simp
    rw [e2]
    congr 1
    simp only [List.length_drop, List.length_append, List.length_cons, List.length_nil]
    omega

theorem run_log_length (evs : List Ev) :
    ∀ (s : ConnState) (lf : LogFile),
      (∀ e ∈ evs, Live.isConnect e = false) →
      s.currentLogFile = some lf →
      (Live.run s evs).currentLogFile.map (fun l => (l.startTime, l.snapshots.length))
        = some (lf.startTime, lf.snapshots.length + Live.countParsed evs) := by
  induction evs with
  | nil =>
    intro s lf _ hlog
    simp [Live.run, Live.countParsed, hlog]
  | cons e tl ih =>
    intro s lf hall hlog
    have htl : ∀ e ∈ tl, Live.isConnect e = false :=
      fun e he => hall e (List.mem_cons_of_mem _ he)
    cases e with
    | connect now =>
      exact absurd (hall _ (List.mem_cons_self _ _)) (by simp [Live.isConnect])
    | openEvt now =>
      have hstep : (Live.step s (.openEvt now)).1.currentLogFile = some lf := by
        simp [Live.step, Live.onOpen, hlog]
      simpa [Live.run, Live.countParsed] using ih _ lf htl hstep
    | closeEvt =>
      have hstep : (Live.step s .closeEvt).1.currentLogFile = some lf := by
        simp [Live.step, Live.onClose, hlog]
      simpa [Live.run, Live.countParsed] using ih _ lf htl hstep
    | message now m =>
      cases m with
      | junk =>
        have hstep : (Live.step s (.message now .junk)).1.currentLogFile = some lf := by
          simp [Live.step, Live.onMessage, hlog]
        simpa [Live.run, Live.countParsed] using ih _ lf htl hstep
      | parsed image kvs =>
        have hstep : (Live.step s (.message now (.parsed image kvs))).1.currentLogFile
            = some ⟨lf.startTime, lf.snapshots ++ [⟨s.nextId, image, kvs, now⟩]⟩ := by
          simp [Live.step, Live.onMessage, hlog]
        have := ih _ ⟨lf.startTime, lf.snapshots ++ [⟨s.nextId, image, kvs, now⟩]⟩ htl hstep
        simp only [List.length_append, List.length_cons, List.length_nil] at this
        simp only [Live.run, Live.countParsed]
        rw [this]
        congr 2
        omega

theorem getField_stage (fs : JRecord) (k k2 : String) (v : JVal) (c : Bool)
    (h : k2 ≠ k) :
    getField (if c then fs else setField fs k v) k2 = getField fs k2 := by
  cases c <;> simp [getField_setField_ne _ _ _ _ h]

theorem getField_stage_self (fs : JRecord) (k : String) (v : JVal) (c : Bool) :
    getField (if c then fs else setField fs k v) k
      = if c then getField fs k else some v := by
  cases c <;> simp [getField_setField_self]

theorem normalizeRecord_getField_ts (fs : JRecord) (i : Nat) :
    getField (normalizeRecord fs i).1 "timestamp"
      = if truthyOpt (getField fs "timestamp") then getField fs "timestamp"
        else some (.jnum i) := by
  simp only [normalizeRecord]
  rw [getField_stage _ "data" "timestamp" _ _ (by decide)]
  rw [getField_stage _ "id" "timestamp" _ _ (by decide)]
  rw [getField_stage_self]

theorem normalizeRecord_getField_id (fs : JRecord) (i : Nat) :
    getField (normalizeRecord fs i).1 "id"
      = if truthyOpt (getField fs "id") then getField fs "id"
        else some (.jnum i) := by
  simp only [normalizeRecord]
  rw [getField_stage _ "data" "id" _ _ (by decide)]
  rw [getField_stage_self]
  rw [getField_stage _ "timestamp" "id" _ _ (by decide)]

theorem normalizeRecord_getField_data (fs : JRecord) (i : Nat) :
    getField (normalizeRecord fs i).1 "data"
      = if truthyOpt (getField fs "data") then getField fs "data"
        else some (.jobj []) := by
  simp only [normalizeRecord]
  rw [getField_stage_self]
  rw [getField_stage _ "id" "data" _ _ (by decide)]
  rw [getField_stage _ "timestamp" "data" _ _ (by decide)]

theorem normalizeRecord_warned (fs : JRecord) (i : Nat) :
    (normalizeRecord fs i).2 = !truthyOpt (getField fs "timestamp") := rfl

theorem getField_snapRecord_id (s : DataSnapshot) :
    getField (snapRecord s) "id" = some (.jnum s.id) := by
  cases s.image <;> rfl

theorem getField_snapRecord_timestamp (s : DataSnapshot) :
    getField (snapRecord s) "timestamp" = some (.jnum s.timestamp) := by
  rcases himg : s.image with _ | img <;> simp [snapRecord, himg, getField]

theorem getField_snapRecord_data (s : DataSnapshot) :
    getField (snapRecord s) "data" = some (.jobj s.data) := by
  rcases himg : s.image with _ | img <;> simp [snapRecord, himg, getField]

theorem getField_snapRecord_image (s : DataSnapshot) :
    getField (snapRecord s) "image" = s.image.map (fun img => .jstr img) := by
  rcases himg : s.image with _ | img <;> simp [snapRecord, himg, getField]

/-- A serialized snapshot whose `timestamp` is non-zero and whose `id` is
either non-zero or equal to its ordinal is a fixed point of the loader's
repair step (so the loader hands it back unchanged, warning-free). -/
theorem normalizeRecord_snapRecord (s : DataSnapshot) (i : Nat)
    (hts : s.timestamp ≠ 0) (hid : s.id ≠ 0 ∨ s.id = i) :
    normalizeRecord (snapRecord s) i = (snapRecord s, false) := by
  have tts : truthyOpt (getField (snapRecord s) "timestamp") = true := by
    rw [getField_snapRecord_timestamp]
    simp [truthyOpt, truthy]
    exact_mod_cast hts
  have tdata : truthyOpt (getField (snapRecord s) "data") = true := by
    rw [getField_snapRecord_data]
    rfl
  rcases Nat.eq_zero_or_pos s.id with h0 | h0
  · have heqi : s.id = i := by
      rcases hid with hid | hid
      · exact absurd h0 hid
      · exact hid
    have hset : setField (snapRecord s) "id" (.jnum i) = snapRecord s := by
      rw [← heqi]
      exact setField_eq_of_getField _ _ _ (getField_snapRecord_id s)
    simp [normalizeRecord, tts, tdata, hset]
  · have tid : truthyOpt (getField (snapRecord s) "id") = true := by
      rw [getField_snapRecord_id]
      simp [truthyOpt, truthy]
      omega
    simp [normalizeRecord, tts, tid, tdata]

/-- Mapping serialized snapshots through the loader's per-element repair,
starting at ordinal `n`, is the identity when every element's fields already
satisfy the recorder's assignment discipline. -/
theorem normElems_snapRecords (l : List DataSnapshot) :
    ∀ n : Nat,
      (∀ p (hp : p < l.length), (l.get ⟨p, hp⟩).timestamp ≠ 0 ∧
        ((l.get ⟨p, hp⟩).id ≠ 0 ∨ (l.get ⟨p, hp⟩).id = n + p)) →
      normElems n (l.map (fun s => .jobj (snapRecord s))) = some (l.map snapRecord) := by
  induction l with
  | nil => intro n _; rfl
  | cons a tl ih =>
    intro n h
    have h0 := h 0 (by simp)
    simp only [List.get] at h0
    have htl : ∀ p (hp : p < tl.length), (tl.get ⟨p, hp⟩).timestamp ≠ 0 ∧
        ((tl.get ⟨p, hp⟩).id ≠ 0 ∨ (tl.get ⟨p, hp⟩).id = (n + 1) + p) := by
      intro p hp
      have hstep := h (p + 1) (by simpa using Nat.succ_lt_succ hp)
      simp only [List.get] at hstep
      refine ⟨hstep.1, ?_⟩
      rcases hstep.2 with h' | h'
      · exact Or.inl h'
      · right
        omega
    have hida : a.id ≠ 0 ∨ a.id = n := by
      rcases h0.2 with h' | h'
      · exact Or.inl h'
      · right
        omega
    simp only [List.map_cons, normElems,
      normalizeRecord_snapRecord a n h0.1 hida, ih (n + 1) htl, Option.map_some']

/-- The recorder's field-assignment discipline, as recorded in the data model:
timestamps are `Date.now()` values (epoch milliseconds, never `0`), and ids
are assigned consecutively from a session counter, so an id can be `0` only
at position `0` of its log. -/
def WellFormedLog (lf : LogFile) : Prop :=
  ∀ p (hp : p < lf.snapshots.length),
    (lf.snapshots.get ⟨p, hp⟩).timestamp ≠ 0 ∧
    ((lf.snapshots.get ⟨p, hp⟩).id ≠ 0 ∨ (lf.snapshots.get ⟨p, hp⟩).id = p)

theorem bconnect_exhausted (s : Bounded.BState) (t : Nat)
    (hn : 3 ≤ s.reconnectAttempts) (hs : s.status = .Exhausted) :
    (Bounded.connectWebSocket s t).2 = false ∧
    3 ≤ (Bounded.connectWebSocket s t).1.reconnectAttempts ∧
    (Bounded.connectWebSocket s t).1.status = .Exhausted := by
  unfold Bounded.connectWebSocket
  by_cases hd : t - s.lastReconnectTime < 500
  · simp [hd, hn, hs]
  · have hgt : s.reconnectAttempts + 1 > 3 := by omega
    simp [hd, hgt]
    omega

theorem runConnects_exhausted (ts : List Nat) :
    ∀ s : Bounded.BState, 3 ≤ s.reconnectAttempts → s.status = .Exhausted →
      (Bounded.runConnects s ts).1.status = .Exhausted ∧
      (Bounded.runConnects s ts).2 = 0 := by
  induction ts with
  | nil =>
    intro s _ hs
    exact ⟨hs, rfl⟩
  | cons t tl ih =>
    intro s hn hs
    obtain ⟨h2, hn', hs'⟩ := bconnect_exhausted s t hn hs
    have := ih (Bounded.connectWebSocket s t).1 hn' hs'
    simp [Bounded.runConnects, h2, this.1, this.2]

/-! ### Claim C1 — playback timer tick -/

/-- C1 counterexample: with `L = 5`, calling `togglePlayback` and letting
4 ticks elapse leaves the engine at index 4 but still *Playing* — the interval
callback compares `prevIndex >= L-1` *before* incrementing, so the tick that
reaches the last element does not pause; the claim asserts state `Paused`
at this point. -/
theorem c1_counterexample :
    Playback.tick 5 (Playback.tick 5 (Playback.tick 5 (Playback.tick 5
      (Playback.togglePlayback 5 ⟨false, 0⟩)))) = ⟨true, 4⟩ := by
  decide

/-- C1 (amended): while `Playing`, a tick at index `< L-1` increments the
index by one and playback continues (even when the increment reaches `L-1`);
a tick at index `≥ L-1` leaves the index unchanged and transitions to
`Paused`.  Concretely, with `L = 5`: `togglePlayback` followed by `k ≤ 4`
ticks gives index `k` still Playing, and every run of 5 or more ticks is
Paused at index 4 — no tick ever advances the index past `L-1`. -/
theorem c1_playback_ticks :
    (∀ k, k ≤ 4 →
      (Playback.tick 5)^[k] (Playback.togglePlayback 5 ⟨false, 0⟩) = ⟨true, k⟩) ∧
    (∀ m, 5 ≤ m →
      (Playback.tick 5)^[m] (Playback.togglePlayback 5 ⟨false, 0⟩) = ⟨false, 4⟩) := by
  constructor
  · intro k hk
    interval_cases k <;> decide
  · intro m hm
    obtain ⟨j, rfl⟩ : ∃ j, m = j + 5 := ⟨m - 5, by omega⟩
    rw [Function.iterate_add_apply]
    have h5 : (Playback.tick 5)^[5] (Playback.togglePlayback 5 ⟨false, 0⟩)
        = ⟨false, 4⟩ := by decide
    rw [h5]
    exact Function.iterate_fixed (by decide) j

/-- Witness for `c1_playback_ticks` at `k = 2` and `m = 7`. -/
theorem c1_playback_ticks_witness :
    (Playback.tick 5)^[2] (Playback.togglePlayback 5 ⟨false, 0⟩) = ⟨true, 2⟩ ∧
    (Playback.tick 5)^[7] (Playback.togglePlayback 5 ⟨false, 0⟩) = ⟨false, 4⟩ :=
  ⟨c1_playback_ticks.1 2 (by decide), c1_playback_ticks.2 7 (by decide)⟩

/-! ### Claim C2 — session log creation -/

/-- C2 counterexample: running a connect call at `t = 1000` and then the
channel's `open` at `t = 1500` from the initial state, the `open` transition
leaves `currentLogFile` exactly as it was, and the log's `startTime` is
`1000` — the *connect attempt's* start, not the open time `1500`.  Log
creation is a side effect of `connectWebSocket`, not of the transition into
`Connected` (whose only effects are the status write and the attempt-counter
reset). -/
theorem c2_counterexample :
    (Live.step (Live.run Live.initState [Ev.connect 1000]) (Ev.openEvt 1500)).1.currentLogFile
        = (Live.run Live.initState [Ev.connect 1000]).currentLogFile ∧
    (Live.run Live.initState [Ev.connect 1000]).currentLogFile.map LogFile.startTime
        = some 1000 ∧
    (1000 : Nat) ≠ 1500 :=
  ⟨rfl, rfl, by decide⟩

/-- C2 (amended): a new Session Log (`startTime` = the attempt's start time,
empty snapshots) is created on every *non-suppressed connect attempt*, not on
the transition into `Connected`; the open handler only sets the status and
resets the attempt counter.  Consequently, for any events following the
attempt that include no further connect call, the log's length equals the
number of successfully parsed inbound messages since the attempt (messages
arrive only after the open, so equivalently: since that open). -/
theorem c2_log_reset (s : ConnState) (now : Nat)
    (h : s.lastReconnectTime + 500 ≤ now)
    (evs : List Ev) (hevs : ∀ e ∈ evs, Live.isConnect e = false) :
    (Live.run (Live.step s (Ev.connect now)).1 evs).currentLogFile.map
        (fun l => (l.startTime, l.snapshots.length))
      = some (now, Live.countParsed evs) := by
  have hng : ¬ (now - s.lastReconnectTime < 500) := by omega
  have hstep : (Live.step s (Ev.connect now)).1.currentLogFile = some ⟨now, []⟩ := by
    simp [Live.step, Live.connectWebSocket, hng]
  simpa using run_log_length evs _ ⟨now, []⟩ hevs hstep

/-- Witness for `c2_log_reset`: connect at 500, then open, one parseable
message and a close; the log records exactly that one snapshot. -/
theorem c2_log_reset_witness :
    (Live.run (Live.step Live.initState (Ev.connect 500)).1
        [Ev.openEvt 600, Ev.message 700 (WSMsg.parsed none []), Ev.closeEvt]).currentLogFile.map
        (fun l => (l.startTime, l.snapshots.length))
      = some (500, 1) :=
  c2_log_reset Live.initState 500 (by decide)
    [Ev.openEvt 600, Ev.message 700 (WSMsg.parsed none []), Ev.closeEvt] (by decide)

/-! ### Claim C3 — bounded reconnect exhaustion -/

/-- State after one failed attempt of the bounded variant (connect at `t1`,
then the channel's `close`). -/
def bS1c (t1 : Nat) : Bounded.BState :=
  (Bounded.onClose (Bounded.connectWebSocket Bounded.initState t1).1).1

/-- State after two consecutive failed attempts. -/
def bS2c (t1 t2 : Nat) : Bounded.BState :=
  (Bounded.onClose (Bounded.connectWebSocket (bS1c t1) t2).1).1

/-- State after three consecutive failed attempts. -/
def bS3c (t1 t2 t3 : Nat) : Bounded.BState :=
  (Bounded.onClose (Bounded.connectWebSocket (bS2c t1 t2) t3).1).1

/-- State after the fourth consecutive failed attempt (which the cap rejects
before any channel is constructed). -/
def bS4 (t1 t2 t3 t4 : Nat) : Bounded.BState :=
  (Bounded.connectWebSocket (bS3c t1 t2 t3) t4).1

/-- C3: in the bounded variant (max = 3), four consecutive failed opens —
three connect attempts whose channels close without opening, plus a fourth
attempt — leave the state `ReconnectExhausted` (`"Failed to connect after 3
attempts"`).  The first three attempts each create a channel; after the third
failure the status is still the attempt-tagged disconnected status (not yet
exhausted) and no reconnect is scheduled; the fourth attempt creates no
channel; and from the exhausted state every further connect call creates no
channel and leaves the status exhausted (terminal unless externally reset). -/
theorem c3_bounded_exhaustion (t1 t2 t3 t4 : Nat)
    (h1 : 500 ≤ t1) (h2 : t1 + 500 ≤ t2) (h3 : t2 + 500 ≤ t3)
    (h4 : t3 + 500 ≤ t4) :
    (Bounded.connectWebSocket Bounded.initState t1).2 = true ∧
    (Bounded.connectWebSocket (bS1c t1) t2).2 = true ∧
    (Bounded.connectWebSocket (bS2c t1 t2) t3).2 = true ∧
    (Bounded.onClose (Bounded.connectWebSocket (bS2c t1 t2) t3).1).2 = false ∧
    (bS3c t1 t2 t3).status = Bounded.BStatus.DisconnectedAttempt 3 ∧
    (Bounded.connectWebSocket (bS3c t1 t2 t3) t4).2 = false ∧
    (bS4 t1 t2 t3 t4).status = Bounded.BStatus.Exhausted ∧
    ∀ ts : List Nat,
      (Bounded.runConnects (bS4 t1 t2 t3 t4) ts).1.status = Bounded.BStatus.Exhausted ∧
      (Bounded.runConnects (bS4 t1 t2 t3 t4) ts).2 = 0 := by
  have g1 : ¬ (t1 - Bounded.initState.lastReconnectTime < 500) := by
    simp [Bounded.initState]
    omega
  have e1 : Bounded.connectWebSocket Bounded.initState t1
      = (⟨t1, 1, Bounded.BStatus.Disconnected⟩, true) := by
    unfold Bounded.connectWebSocket
    rw [if_neg g1]
    rfl
  have e1c : bS1c t1 = ⟨t1, 1, Bounded.BStatus.DisconnectedAttempt 1⟩ := by
    unfold bS1c
    rw [e1]
    rfl
  have g2 : ¬ (t2 - (bS1c t1).lastReconnectTime < 500) := by
    rw [e1c]
    simp
    omega
  have e2 : Bounded.connectWebSocket (bS1c t1) t2
      = (⟨t2, 2, Bounded.BStatus.DisconnectedAttempt 1⟩, true) := by
    unfold Bounded.connectWebSocket
    rw [if_neg g2, e1c]
    rfl
  have e2c : bS2c t1 t2 = ⟨t2, 2, Bounded.BStatus.DisconnectedAttempt 2⟩ := by
    unfold bS2c
    rw [e2]
    rfl
  have g3 : ¬ (t3 - (bS2c t1 t2).lastReconnectTime < 500) := by
    rw [e2c]
    simp
    omega
  have e3 : Bounded.connectWebSocket (bS2c t1 t2) t3
      = (⟨t3, 3, Bounded.BStatus.DisconnectedAttempt 2⟩, true) := by
    unfold Bounded.connectWebSocket
    rw [if_neg g3, e2c]
    rfl
  have e3c : bS3c t1 t2 t3 = ⟨t3, 3, Bounded.BStatus.DisconnectedAttempt 3⟩ := by
    unfold bS3c
    rw [e3]
    rfl
  have g4 : ¬ (t4 - (bS3c t1 t2 t3).lastReconnectTime < 500) := by
    rw [e3c]
    simp
    omega
  have e4 : Bounded.connectWebSocket (bS3c t1 t2 t3) t4
      = (⟨t4, 4, Bounded.BStatus.Exhausted⟩, false) := by
    unfold Bounded.connectWebSocket
    rw [if_neg g4, e3c]
    rfl
  have e4s : bS4 t1 t2 t3 t4 = ⟨t4, 4, Bounded.BStatus.Exhausted⟩ := by
    unfold bS4
    rw [e4]
  refine ⟨by rw [e1], by rw [e2], by rw [e3], by rw [e3]; rfl, by rw [e3c],
          by rw [e4], by rw [e4s], ?_⟩
  intro ts
  have := runConnects_exhausted ts (bS4 t1 t2 t3 t4)
    (by rw [e4s]; exact (by decide : (3 : Nat) ≤ 4)) (by rw [e4s])
  exact this

/-- Witness for `c3_bounded_exhaustion` at attempt times 500, 1000, 1500,
2000 and two further connect calls. -/
theorem c3_bounded_exhaustion_witness :
    (bS4 500 1000 1500 2000).status = Bounded.BStatus.Exhausted ∧
    (Bounded.runConnects (bS4 500 1000 1500 2000) [2500, 3000]).1.status
      = Bounded.BStatus.Exhausted ∧
    (Bounded.runConnects (bS4 500 1000 1500 2000) [2500, 3000]).2 = 0 := by
  have h := c3_bounded_exhaustion 500 1000 1500 2000
    (by decide) (by decide) (by decide) (by decide)
  exact ⟨h.2.2.2.2.2.2.1, (h.2.2.2.2.2.2.2 [2500, 3000]).1,
         (h.2.2.2.2.2.2.2 [2500, 3000]).2⟩

/-! ### Claim C4 — debounce guard -/

/-- C4: a non-suppressed connect attempt at `t1` creates a channel; a second
connect call at `t2` less than 500 ms after `t1` is suppressed — it creates no
channel and leaves the manager's state exactly as the first call left it.
Hence two `start()` calls within 500 ms result in exactly one active
channel. -/
theorem c4_debounce (s : ConnState) (t1 t2 : Nat)
    (h1 : s.lastReconnectTime + 500 ≤ t1) (h2 : t2 - t1 < 500) :
    (Live.connectWebSocket s t1).2.channelCreated = true ∧
    (Live.connectWebSocket (Live.connectWebSocket s t1).1 t2).2.channelCreated = false ∧
    (Live.connectWebSocket (Live.connectWebSocket s t1).1 t2).1
      = (Live.connectWebSocket s t1).1 := by
  have hng : ¬ (t1 - s.lastReconnectTime < 500) := by omega
  have hl : (Live.connectWebSocket s t1).1.lastReconnectTime = t1 := by
    unfold Live.connectWebSocket
    rw [if_neg hng]
  have hg2 : t2 - (Live.connectWebSocket s t1).1.lastReconnectTime < 500 := by
    rw [hl]
    exact h2
  have e2 : Live.connectWebSocket (Live.connectWebSocket s t1).1 t2
      = ((Live.connectWebSocket s t1).1, ⟨false, false⟩) := by
    conv_lhs => rw [Live.connectWebSocket]
    rw [if_pos hg2]
  refine ⟨?_, by rw [e2], by rw [e2]⟩
  unfold Live.connectWebSocket
  rw [if_neg hng]

/-- Witness for `c4_debounce`: from the initial state, attempts at 500 and
800 ms. -/
theorem c4_debounce_witness :
    (Live.connectWebSocket Live.initState 500).2.channelCreated = true ∧
    (Live.connectWebSocket (Live.connectWebSocket Live.initState 500).1 800).2.channelCreated
      = false ∧
    (Live.connectWebSocket (Live.connectWebSocket Live.initState 500).1 800).1
      = (Live.connectWebSocket Live.initState 500).1 :=
  c4_debounce Live.initState 500 800 (by decide) (by decide)

/-! ### Claim C5 — loader never raises -/

/-- Whether the decoded artifact's `snapshots` field exists and is an array —
the condition the loader's structural guard accepts (a missing field is falsy
`undefined`, every falsy value is a non-array, and arrays are truthy, so
`!logFile.snapshots || !Array.isArray(logFile.snapshots)` rejects exactly the
non-`jarr` cases). -/
def hasSnapshotsArray (v : JVal) : Bool :=
  match getJField v "snapshots" with
  | some (.jarr _) => true
  | _ => false

/-- C5: `loadLogFile` never raises to its caller — it always returns a
`LoadResult`.  When the decoded artifact lacks a `snapshots` field or that
field is not a sequence, it reports the `MalformedLog` condition and resolves
to the empty sequence; on a lower-level fetch/decode failure it logs the
failure and resolves to the empty sequence; and whenever any failure is
reported, the resolved sequence is empty (no partial recovery). -/
theorem c5_load_never_raises :
    (∀ e : String, loadLogFile (Except.error e)
      = ⟨some LoadErr.fetchFailure, []⟩) ∧
    (∀ v : JVal, hasSnapshotsArray v = false →
      loadLogFile (Except.ok v) = ⟨some LoadErr.malformedLog, []⟩) ∧
    (∀ input : Except String JVal, (loadLogFile input).reported.isSome = true →
      (loadLogFile input).snapshots = []) := by
  refine ⟨fun e => rfl, ?_, ?_⟩
  · intro v hv
    unfold hasSnapshotsArray at hv
    cases hsv : getJField v "snapshots" with
    | none => simp [loadLogFile, hsv]
    | some w =>
      cases w with
      | jarr elems => rw [hsv] at hv; cases hv
      | jnull => simp [loadLogFile, hsv]
      | jbool b => simp [loadLogFile, hsv]
      | jnum n => simp [loadLogFile, hsv]
      | jstr s2 => simp [loadLogFile, hsv]
      | jobj fields => simp [loadLogFile, hsv]
  · intro input h
    match input with
    | .error e => rfl
    | .ok v =>
      cases hsv : getJField v "snapshots" with
      | none => simp [loadLogFile, hsv]
      | some w =>
        cases w with
        | jarr elems =>
          cases hne : normElems 0 elems with
          | some rs => simp [loadLogFile, hsv, hne] at h
          | none => simp [loadLogFile, hsv, hne]
        | jnull => simp [loadLogFile, hsv]
        | jbool b => simp [loadLogFile, hsv]
        | jnum n => simp [loadLogFile, hsv]
        | jstr s2 => simp [loadLogFile, hsv]
        | jobj fields => simp [loadLogFile, hsv]

/-- Witness for `c5_load_never_raises`: a thrown fetch, and the spec's own
example `{"snapshots": "not-an-array"}`. -/
theorem c5_load_never_raises_witness :
    loadLogFile (Except.error "boom") = ⟨some LoadErr.fetchFailure, []⟩ ∧
    loadLogFile (Except.ok (JVal.jobj [("snapshots", JVal.jstr "not-an-array")]))
      = ⟨some LoadErr.malformedLog, []⟩ ∧
    (loadLogFile (Except.ok (JVal.jobj [("snapshots", JVal.jstr "not-an-array")]))).snapshots
      = [] :=
  ⟨c5_load_never_raises.1 "boom",
   c5_load_never_raises.2.1 (JVal.jobj [("snapshots", JVal.jstr "not-an-array")]) rfl,
   c5_load_never_raises.2.2 (Except.ok (JVal.jobj [("snapshots", JVal.jstr "not-an-array")])) rfl⟩

/-! ### Claim C6 — normalizer totality and defaults -/

/-- C6: for every raw record and every ordinal, the repair step cannot fail
(it is a total function) and the produced snapshot has `timestamp`, `id` and
`data` populated; a missing-or-falsy `timestamp` is set to the ordinal with
the non-fatal warning emitted, a missing-or-falsy `id` is set to the ordinal,
and a missing `data` is set to the empty mapping. -/
theorem c6_normalizer_totality (fs : JRecord) (i : Nat) :
    ((getField (normalizeRecord fs i).1 "timestamp").isSome = true ∧
     (getField (normalizeRecord fs i).1 "id").isSome = true ∧
     (getField (normalizeRecord fs i).1 "data").isSome = true) ∧
    (truthyOpt (getField fs "timestamp") = false →
      getField (normalizeRecord fs i).1 "timestamp" = some (.jnum i) ∧
      (normalizeRecord fs i).2 = true) ∧
    (truthyOpt (getField fs "id") = false →
      getField (normalizeRecord fs i).1 "id" = some (.jnum i)) ∧
    (getField fs "data" = none →
      getField (normalizeRecord fs i).1 "data" = some (.jobj [])) := by
  refine ⟨⟨?_, ?_, ?_⟩, ?_, ?_, ?_⟩
  · rw [normalizeRecord_getField_ts]
    rcases hg : getField fs "timestamp" with _ | w
    · simp [truthyOpt]
    · split <;> simp
  · rw [normalizeRecord_getField_id]
    rcases hg : getField fs "id" with _ | w
    · simp [truthyOpt]
    · split <;> simp
  · rw [normalizeRecord_getField_data]
    rcases hg : getField fs "data" with _ | w
    · simp [truthyOpt]
    · split <;> simp
  · intro h
    rw [normalizeRecord_getField_ts, normalizeRecord_warned, h]
    simp
  · intro h
    rw [normalizeRecord_getField_id, h]
    simp
  · intro h
    rw [normalizeRecord_getField_data, h]
    simp [truthyOpt]

/-- Witness for `c6_normalizer_totality`: a record carrying none of the three
fields, at ordinal 3. -/
theorem c6_normalizer_totality_witness :
    getField (normalizeRecord [("foo", JVal.jstr "x")] 3).1 "timestamp"
      = some (JVal.jnum 3) ∧
    (normalizeRecord [("foo", JVal.jstr "x")] 3).2 = true ∧
    getField (normalizeRecord [("foo", JVal.jstr "x")] 3).1 "id"
      = some (JVal.jnum 3) ∧
    getField (normalizeRecord [("foo", JVal.jstr "x")] 3).1 "data"
      = some (JVal.jobj []) := by
  have h := c6_normalizer_totality [("foo", JVal.jstr "x")] 3
  exact ⟨(h.2.1 rfl).1, (h.2.1 rfl).2, h.2.2.1 rfl, h.2.2.2 rfl⟩

/-! ### Claim C7 — live history bound -/

/-- C7: the live-history buffer never holds more than 10 snapshots — a push
from any previous contents yields at most 10 — and pushing any sequence of
more than 10 snapshots into the empty buffer leaves exactly the last 10, in
arrival order. -/
theorem c7_history_bound :
    (∀ (prev : List DataSnapshot) (s : DataSnapshot),
      (pushHistory prev s).length ≤ 10) ∧
    (∀ l : List DataSnapshot, 10 < l.length →
      l.foldl pushHistory [] = l.drop (l.length - 10)) := by
  refine ⟨pushHistory_length_le, ?_⟩
  intro l hl
  simpa using foldl_pushHistory l [] (by simp)

/-- An anonymous telemetry snapshot used for concrete tests. -/
def plainSnap (n : Nat) : DataSnapshot := ⟨n, none, [], n + 1⟩

/-- Eleven pushes worth of snapshots. -/
def elevenSnaps : List DataSnapshot := (List.range 11).map plainSnap

/-- Witness for `c7_history_bound`: pushing 11 snapshots leaves the last 10. -/
theorem c7_history_bound_witness :
    (pushHistory elevenSnaps (plainSnap 11)).length ≤ 10 ∧
    elevenSnaps.foldl pushHistory [] = elevenSnaps.drop (elevenSnaps.length - 10) :=
  ⟨c7_history_bound.1 elevenSnaps (plainSnap 11),
   c7_history_bound.2 elevenSnaps (by decide)⟩

/-! ### Claim C8 — persist/load round trip -/

/-- C8: persisting a session log (serializing `{startTime, snapshots}`) and
loading the artifact back yields, error-free, exactly the recorded snapshots
in order — each loaded record is the serialized view `snapRecord` of the
original snapshot, whose `id`, `timestamp`, `data` and `image` field reads
return exactly the original field values.  `WellFormedLog` is the recorder's
assignment discipline (epoch-millisecond timestamps are never `0`; ids count
up from the session counter, so an id `0` occurs only at position `0`). -/
theorem c8_roundtrip (lf : LogFile) (h : WellFormedLog lf) :
    loadLogFile (Except.ok (serializeLogFile lf))
      = ⟨none, lf.snapshots.map snapRecord⟩ ∧
    ∀ s : DataSnapshot,
      getField (snapRecord s) "id" = some (.jnum s.id) ∧
      getField (snapRecord s) "timestamp" = some (.jnum s.timestamp) ∧
      getField (snapRecord s) "data" = some (.jobj s.data) ∧
      getField (snapRecord s) "image" = s.image.map (fun img => .jstr img) := by
  constructor
  · have hsv : getJField (serializeLogFile lf) "snapshots"
        = some (.jarr (lf.snapshots.map (fun s => .jobj (snapRecord s)))) := rfl
    have hwf : ∀ p (hp : p < lf.snapshots.length),
        (lf.snapshots.get ⟨p, hp⟩).timestamp ≠ 0 ∧
        ((lf.snapshots.get ⟨p, hp⟩).id ≠ 0 ∨ (lf.snapshots.get ⟨p, hp⟩).id = 0 + p) := by
      intro p hp
      refine ⟨(h p hp).1, ?_⟩
      rcases (h p hp).2 with h' | h'
      · exact Or.inl h'
      · right
        omega
    simp [loadLogFile, hsv, normElems_snapRecords lf.snapshots 0 hwf]
  · intro s
    exact ⟨getField_snapRecord_id s, getField_snapRecord_timestamp s,
           getField_snapRecord_data s, getField_snapRecord_image s⟩

/-- A concrete two-snapshot session log (one snapshot with an image and data,
one bare). -/
def sampleLog : LogFile :=
  ⟨1000, [⟨0, some "imgA", [("speed", JVal.jnum 3)], 111⟩, ⟨1, none, [], 222⟩]⟩

/-- Witness for `c8_roundtrip` on `sampleLog`. -/
theorem c8_roundtrip_witness :
    loadLogFile (Except.ok (serializeLogFile sampleLog))
      = ⟨none, sampleLog.snapshots.map snapRecord⟩ ∧
    getField (snapRecord ⟨0, some "imgA", [("speed", JVal.jnum 3)], 111⟩) "id"
      = some (JVal.jnum 0) := by
  have h := c8_roundtrip sampleLog (by unfold WellFormedLog; decide)
  exact ⟨h.1, (h.2 ⟨0, some "imgA", [("speed", JVal.jnum 3)], 111⟩).1⟩

/-! ### Claim C9 — playback cursor invariant -/

/-- C9: the playback cursor always satisfies `0 ≤ index < max(L, 1)`:
the initial state satisfies it for every `L`, `togglePlayback` and the timer
tick preserve it, and completing a new load — whatever state playback was
in, Playing included — replaces the backing sequence and resets the cursor to
`Paused` at index 0, which satisfies the bound for the new sequence's
length (the in-toggle "reset to start" and the load's reset are the only
index writes besides the tick's increment). -/
theorem c9_cursor_invariant :
    (∀ L : Nat, Playback.inv L ⟨false, 0⟩) ∧
    (∀ (L : Nat) (s : Playback.PState),
      Playback.inv L s → Playback.inv L (Playback.togglePlayback L s)) ∧
    (∀ (L : Nat) (s : Playback.PState),
      Playback.inv L s → Playback.inv L (Playback.tick L s)) ∧
    (∀ loaded : List JRecord,
      (Playback.loadComplete loaded).2 = ⟨false, 0⟩ ∧
      Playback.inv loaded.length (Playback.loadComplete loaded).2) := by
  refine ⟨?_, ?_, ?_, ?_⟩
  · intro L
    unfold Playback.inv
    simp
  · intro L s h
    unfold Playback.inv at h ⊢
    unfold Playback.togglePlayback
    rcases hc : (!s.isPlaying && decide (L - 1 ≤ s.currentIndex)) with _ | _ <;>
      simp [hc] <;> omega
  · intro L s h
    unfold Playback.inv at h ⊢
    unfold Playback.tick
    by_cases hc : L - 1 ≤ s.currentIndex
    · rw [if_pos hc]
      exact h
    · rw [if_neg hc]
      simp only
      omega
  · intro loaded
    refine ⟨rfl, ?_⟩
    unfold Playback.inv Playback.loadComplete
    simp

/-- Witness for `c9_cursor_invariant` at `L = 5`, state Playing at index 2,
and a singleton loaded sequence. -/
theorem c9_cursor_invariant_witness :
    Playback.inv 5 ⟨false, 0⟩ ∧
    Playback.inv 5 (Playback.togglePlayback 5 ⟨true, 2⟩) ∧
    Playback.inv 5 (Playback.tick 5 ⟨true, 2⟩) ∧
    ((Playback.loadComplete [[("k", JVal.jnum 1)]]).2 = ⟨false, 0⟩ ∧
     Playback.inv [[("k", JVal.jnum 1)]].length (Playback.loadComplete [[("k", JVal.jnum 1)]]).2) :=
  ⟨c9_cursor_invariant.1 5,
   c9_cursor_invariant.2.1 5 ⟨true, 2⟩ (by unfold Playback.inv; decide),
   c9_cursor_invariant.2.2.1 5 ⟨true, 2⟩ (by unfold Playback.inv; decide),
   c9_cursor_invariant.2.2.2 [[("k", JVal.jnum 1)]]⟩

/-! ### Claim C10 — suppressed connect leaves state unchanged -/

/-- C10: a connect call the debounce guard suppresses (less than 500 ms after
the previous attempt's start) returns before any mutation: the whole manager
state — attempt counter, last-attempt time, current session log and the stamp
its file name is derived from, status, history, id counter — is unchanged, no
channel is created and no download is triggered. -/
theorem c10_suppressed_frame (s : ConnState) (now : Nat)
    (h : now - s.lastReconnectTime < 500) :
    Live.step s (Ev.connect now) = (s, ⟨false, false⟩) := by
  show Live.connectWebSocket s now = (s, ⟨false, false⟩)
  unfold Live.connectWebSocket
  rw [if_pos h]

/-- A connection-manager state mid-session: nonempty log, nonzero counters. -/
def busyState : ConnState :=
  ⟨1000, 2, 5, 1000,
   some ⟨1000, [⟨4, some "img", [("speed", JVal.jnum 3)], 1050⟩]⟩,
   ConnStatus.Connected,
   [⟨4, some "img", [("speed", JVal.jnum 3)], 1050⟩]⟩

/-- Witness for `c10_suppressed_frame`: a connect call 200 ms after the last
attempt leaves `busyState` untouched. -/
theorem c10_suppressed_frame_witness :
    Live.step busyState (Ev.connect 1200) = (busyState, ⟨false, false⟩) :=
  c10_suppressed_frame busyState 1200 (by decide)
